import Mathlib

/-!
Shallow embedding of the contact-manager core in `assistant_bot.py`:
field validation (`Phone.__init__`, `Birthday.__init__`), the `Record`
operations, and `AddressBook.get_upcoming_birthdays`.

Conventions of the embedding:
* Python strings are Lean `String`s (sequences of Unicode scalar values;
  Python's `len` and Lean's `String.length` both count code points).
* A raised `ValueError` is modelled as an explicit error value.  Operations
  that mutate a record in place are modelled in state-passing style
  `Record → … → Record × Option PyErr`: the returned record is the record's
  state when the call returns or raises, so atomicity statements are
  expressible.
* `datetime.date` is modelled by a year/month/day triple together with the
  proleptic-Gregorian validity check performed by the `date` constructor.
-/

set_option autoImplicit false

namespace AssistantBot

/-- A Python `ValueError` carrying its message. -/
inductive PyErr where
  | valueError (msg : String)
  deriving DecidableEq, Repr

/-! ### Model of the Python character-class primitives

`Phone.__init__` calls `str.isdigit`, and `Birthday.__init__` calls
`datetime.strptime` whose `%d`/`%m`/`%Y` directives match the regex class
`\d`.  In CPython, `\d` matches any Unicode decimal digit
(category `Nd`), while `str.isdigit` additionally accepts characters with
Unicode property `Numeric_Type=Digit`, such as the superscripts `¹²³`.
We model these predicates on a representative set of code points: the ASCII
digits `0-9`, the Arabic-Indic digits `U+0660`–`U+0669` (category `Nd`), and
the superscript digits `U+00B9`, `U+00B2`, `U+00B3` (`Numeric_Type=Digit`
but not `Nd`).  CPython accepts further code points of the same two classes;
none are used in this development. -/

/-- The numeric value of a Unicode decimal digit (category `Nd`), for the
code points covered by the model; `none` on every other character. -/
def ndDigitVal (c : Char) : Option Nat :=
  if 48 ≤ c.toNat ∧ c.toNat ≤ 57 then some (c.toNat - 48)
  else if 0x660 ≤ c.toNat ∧ c.toNat ≤ 0x669 then some (c.toNat - 0x660)
  else none

/-- Is `c` a Unicode decimal digit (regex `\d`)? -/
def isNd (c : Char) : Bool :=
  (ndDigitVal c).isSome

/-- Model of Python `str.isdigit` at the character level: decimal digits
plus `Numeric_Type=Digit` characters (here the superscript digits). -/
def pyIsDigitChar (c : Char) : Bool :=
  isNd c || c.toNat = 0xB9 || c.toNat = 0xB2 || c.toNat = 0xB3

/-- Model of Python `str.isdigit`: non-empty and every character a digit. -/
def pyIsDigit (s : String) : Bool :=
  !s.toList.isEmpty && s.toList.all pyIsDigitChar

/-! ### `Phone.__init__` (src/assistant_bot.py lines 33-37)

`if not value.isdigit() or len(value) != 10: raise ValueError(...)`;
otherwise the `Phone` stores `value` unchanged. -/

/-- `Phone.__init__`: returns the stored `value` on success. -/
def phone_init (value : String) : Except PyErr String :=
  if !pyIsDigit value || value.length ≠ 10 then
    .error (.valueError "Phone must be a 10-digit string")
  else
    .ok value

/-! ### `Birthday.__init__` (src/assistant_bot.py lines 39-45)

`datetime.datetime.strptime(value, "%d.%m.%Y").date()`; any exception is
converted to `ValueError("Invalid date format. Use DD.MM.YYYY")`, and on
success the raw string is stored.

CPython's `_strptime` compiles `"%d.%m.%Y"` to the anchored regex
`(3[01]|[12]\d|0[1-9]|[1-9])\.(1[0-2]|0[1-9]|[1-9])\.(\d\d\d\d)` and
requires the whole input to be consumed; the matched numbers are then passed
to the `datetime.date` constructor, which checks calendar validity.
The parser below implements that regex, including the backtracking from a
two-character day/month alternative to the one-character one. -/

/-- The two-character alternatives of the `%d` directive:
`3[01] | [12]\d | 0[1-9]`. -/
def day2 (c0 c1 : Char) : Option Nat :=
  if c0 = '3' ∧ (c1 = '0' ∨ c1 = '1') then some (30 + (c1.toNat - 48))
  else if (c0 = '1' ∨ c0 = '2') ∧ isNd c1 then
    (ndDigitVal c1).map (fun v => (c0.toNat - 48) * 10 + v)
  else if c0 = '0' ∧ (49 ≤ c1.toNat ∧ c1.toNat ≤ 57) then some (c1.toNat - 48)
  else none

/-- The one-character alternative of the `%d` directive: `[1-9]`. -/
def day1 (c0 : Char) : Option Nat :=
  if 49 ≤ c0.toNat ∧ c0.toNat ≤ 57 then some (c0.toNat - 48) else none

/-- The final, space-padded alternative of the `%d` directive: ` [1-9]`. -/
def daySpace (c0 c1 : Char) : Option Nat :=
  if c0 = ' ' ∧ (49 ≤ c1.toNat ∧ c1.toNat ≤ 57) then some (c1.toNat - 48)
  else none

/-- The two-character alternatives of the `%m` directive:
`1[0-2] | 0[1-9]`. -/
def month2 (c0 c1 : Char) : Option Nat :=
  if c0 = '1' ∧ (c1 = '0' ∨ c1 = '1' ∨ c1 = '2') then some (10 + (c1.toNat - 48))
  else if c0 = '0' ∧ (49 ≤ c1.toNat ∧ c1.toNat ≤ 57) then some (c1.toNat - 48)
  else none

/-- The one-character alternative of the `%m` directive: `[1-9]`. -/
def month1 (c0 : Char) : Option Nat :=
  if 49 ≤ c0.toNat ∧ c0.toNat ≤ 57 then some (c0.toNat - 48) else none

/-- `\.(\d\d\d\d)` followed by end of input: the `.%Y` tail of the format. -/
def dotYearEnd (cs : List Char) : Option Nat :=
  match cs with
  | ['.', a, b, c, d] =>
    match ndDigitVal a, ndDigitVal b, ndDigitVal c, ndDigitVal d with
    | some va, some vb, some vc, some vd =>
        some (va * 1000 + vb * 100 + vc * 10 + vd)
    | _, _, _, _ => none
  | _ => none

/-- `\.` then month then `.%Y` tail, with the regex's preference for the
two-character month alternative and backtracking to the one-character one. -/
def dotMonthYear (cs : List Char) : Option (Nat × Nat) :=
  match cs with
  | '.' :: rest =>
    (match rest with
     | c0 :: c1 :: rest2 =>
       (match month2 c0 c1 with
        | some m => (dotYearEnd rest2).map (fun y => (m, y))
        | none => none)
     | _ => none) <|>
    (match rest with
     | c0 :: rest1 =>
       (match month1 c0 with
        | some m => (dotYearEnd rest1).map (fun y => (m, y))
        | none => none)
     | _ => none)
  | _ => none

/-- The full anchored match of `"%d.%m.%Y"` on a character list, returning
`(day, month, year)`. -/
def matchDMY (cs : List Char) : Option (Nat × Nat × Nat) :=
  (match cs with
   | c0 :: c1 :: rest2 =>
     (match day2 c0 c1 with
      | some d => (dotMonthYear rest2).map (fun my => (d, my.1, my.2))
      | none => none)
   | _ => none) <|>
  (match cs with
   | c0 :: rest1 =>
     (match day1 c0 with
      | some d => (dotMonthYear rest1).map (fun my => (d, my.1, my.2))
      | none => none)
   | _ => none) <|>
  (match cs with
   | c0 :: c1 :: rest2 =>
     (match daySpace c0 c1 with
      | some d => (dotMonthYear rest2).map (fun my => (d, my.1, my.2))
      | none => none)
   | _ => none)

/-- `strptime(s, "%d.%m.%Y")`'s regex phase on a string. -/
def parseDMY (s : String) : Option (Nat × Nat × Nat) :=
  matchDMY s.toList

/-! ### Model of `datetime.date` -/

/-- A `datetime.date` value (the constructor enforces validity). -/
structure PyDate where
  y : Nat
  m : Nat
  d : Nat
  deriving DecidableEq, Repr

/-- Gregorian leap-year test, as in `calendar.isleap` / `datetime`. -/
def isLeap (y : Nat) : Bool :=
  y % 4 = 0 && (y % 100 ≠ 0 || y % 400 = 0)

/-- Number of days in month `m` of year `y`. -/
def daysInMonth (y m : Nat) : Nat :=
  if m = 2 then (if isLeap y then 29 else 28)
  else if m = 4 ∨ m = 6 ∨ m = 9 ∨ m = 11 then 30
  else 31

/-- The validity check of the `datetime.date` constructor:
`MINYEAR ≤ y ≤ MAXYEAR`, `1 ≤ m ≤ 12`, `1 ≤ d ≤ daysInMonth`. -/
def dateOk (y m d : Nat) : Bool :=
  decide (1 ≤ y) && decide (y ≤ 9999) && decide (1 ≤ m) && decide (m ≤ 12)
    && decide (1 ≤ d) && decide (d ≤ daysInMonth y m)

/-- `datetime.date(y, m, d)`: checks year, then month, then day, raising
`ValueError` as CPython does. -/
def mkDate (y m d : Nat) : Except PyErr PyDate :=
  if ¬(1 ≤ y ∧ y ≤ 9999) then
    .error (.valueError "year is out of range")
  else if ¬(1 ≤ m ∧ m ≤ 12) then
    .error (.valueError "month must be in 1..12")
  else if ¬(1 ≤ d ∧ d ≤ daysInMonth y m) then
    .error (.valueError "day is out of range for month")
  else
    .ok ⟨y, m, d⟩

/-- `strptime(s, "%d.%m.%Y").date()`: regex match, then date construction. -/
def strptimeDMY (s : String) : Except PyErr PyDate :=
  match parseDMY s with
  | none => .error (.valueError "time data does not match format")
  | some (d, m, y) => mkDate y m d

/-- `Birthday.__init__`: stores the raw string when it parses. -/
def birthday_init (value : String) : Except PyErr String :=
  match strptimeDMY value with
  | .error _ => .error (.valueError "Invalid date format. Use DD.MM.YYYY")
  | .ok _ => .ok value

/-! ### `Record` (src/assistant_bot.py lines 48-89)

A `Record` holds `name` (a `Name` field, whose constructor performs no
validation), `phones` (a Python list of `Phone` objects, each carrying only
its `value` string), and `birthday` (`None` or a `Birthday`, which carries
the raw string it was built from).  The mutating operations are embedded in
state-passing style: the result is the record's state when the call
returns together with `none`, or raises `some err`. -/

structure Record where
  name : String
  phones : List String
  birthday : Option String
  deriving DecidableEq, Repr

namespace Record

/-- `Record.__init__(name)`: no validation of any kind is performed. -/
def init (name : String) : Record :=
  { name := name, phones := [], birthday := none }

/-- `find_phone`: first stored phone whose `value` equals `phone_str`. -/
def find_phone (rec : Record) (phone_str : String) : Option String :=
  rec.phones.find? (fun ph => ph == phone_str)

/-- `add_phone`: duplicate check, then `Phone` validation, then append. -/
def add_phone (rec : Record) (new_phone : String) : Record × Option PyErr :=
  if (rec.find_phone new_phone).isSome then
    (rec, some (.valueError
      ("Phone number " ++ new_phone ++ " already exists for " ++ rec.name)))
  else
    match phone_init new_phone with
    | .error e => (rec, some e)
    | .ok phone => ({ rec with phones := rec.phones ++ [phone] }, none)

/-- `remove_phone`: removes the object found by `find_phone` (the first
stored phone with that value), or raises if there is none. -/
def remove_phone (rec : Record) (rem_phone : String) : Record × Option PyErr :=
  match rec.find_phone rem_phone with
  | some phone_obj => ({ rec with phones := rec.phones.erase phone_obj }, none)
  | none => (rec, some (.valueError ("Phone number " ++ rem_phone ++ " not found")))

/-- `edit_phone(old, new)`: presence check for `old`, then `add_phone new`,
then `remove_phone old`; an error from any step propagates with the record
in its state at that point. -/
def edit_phone (rec : Record) (old new : String) : Record × Option PyErr :=
  if (rec.find_phone old).isNone then
    (rec, some (.valueError ("Phone number " ++ old ++ " not found")))
  else
    match rec.add_phone new with
    | (rec1, some e) => (rec1, some e)
    | (rec1, none) => rec1.remove_phone old

/-- `add_birthday`: rejects when a birthday is already set, otherwise
validates via `Birthday` and stores it. -/
def add_birthday (rec : Record) (bday_value : String) : Record × Option PyErr :=
  match rec.birthday with
  | some _ => (rec, some (.valueError "Birthday already set for this contact"))
  | none =>
    match birthday_init bday_value with
    | .error e => (rec, some e)
    | .ok bday => ({ rec with birthday := some bday }, none)

end Record

/-! ### Date arithmetic used by `get_upcoming_birthdays`

`datetime.date` ordering compares the `(y, m, d)` triples
lexicographically; `timedelta` addition advances through the calendar.
`date.weekday()` is Monday = 0 … Sunday = 6, computed from the proleptic
Gregorian ordinal (ordinal 1 = 0001-01-01, a Monday). -/

/-- Lexicographic `date` comparison `a < b`. -/
def dateLt (a b : PyDate) : Bool :=
  if a.y < b.y then true
  else if b.y < a.y then false
  else if a.m < b.m then true
  else if b.m < a.m then false
  else decide (a.d < b.d)

/-- Lexicographic `date` comparison `a ≤ b`. -/
def dateLe (a b : PyDate) : Bool :=
  !dateLt b a

/-- Days in all years strictly before year `y` (proleptic Gregorian). -/
def daysBeforeYear (y : Nat) : Nat :=
  365 * (y - 1) + (y - 1) / 4 - (y - 1) / 100 + (y - 1) / 400

/-- Days in all months of year `y` strictly before month `m`. -/
def daysBeforeMonth (y m : Nat) : Nat :=
  (match m with
   | 2 => 31 | 3 => 59 | 4 => 90 | 5 => 120 | 6 => 151 | 7 => 181
   | 8 => 212 | 9 => 243 | 10 => 273 | 11 => 304 | 12 => 334
   | _ => 0)
  + (if 3 ≤ m ∧ isLeap y then 1 else 0)

/-- `date.toordinal()`: 0001-01-01 is ordinal 1. -/
def toordinal (dt : PyDate) : Nat :=
  daysBeforeYear dt.y + daysBeforeMonth dt.y dt.m + dt.d

/-- `date.weekday()`: Monday = 0 … Sunday = 6. -/
def weekday (dt : PyDate) : Nat :=
  (toordinal dt + 6) % 7

/-- The calendar successor of a date, for `timedelta(days=1)`. -/
def nextDay (dt : PyDate) : PyDate :=
  if dt.d < daysInMonth dt.y dt.m then ⟨dt.y, dt.m, dt.d + 1⟩
  else if dt.m < 12 then ⟨dt.y, dt.m + 1, 1⟩
  else ⟨dt.y + 1, 1, 1⟩

/-- `dt + timedelta(days=n)`. -/
def addDays (dt : PyDate) (n : Nat) : PyDate :=
  Nat.repeat nextDay n dt

/-- `date.strftime("%d.%m.%Y")`: zero-padded day and month, the year as
four digits (all dates in play have four-digit years). -/
def strftimeDMY (dt : PyDate) : String :=
  (if dt.d < 10 then "0" ++ toString dt.d else toString dt.d) ++ "." ++
  (if dt.m < 10 then "0" ++ toString dt.m else toString dt.m) ++ "." ++
  toString dt.y

/-! ### `AddressBook.get_upcoming_birthdays` (src/assistant_bot.py lines 109-145)

The function reads `today = datetime.date.today()` from the wall clock — it
has no `today` parameter.  The embedding makes that ambient clock reading an
explicit argument.  The address book's `data.values()` iteration sequence is
embedded as a `List Record`.

Per record with a birthday: the stored string is re-parsed with `strptime`
(outside any `try`, so a parse failure raises); `date(today.year, month,
day)` is built inside `try/except ValueError`, skipping the record on
failure; if that candidate is `< today`, `date(today.year + 1, month, day)`
is built **outside** any `try`, so a `ValueError` there propagates out of
the whole call; Saturday shifts +2 days and Sunday +1; the record is kept
when `today <= shifted <= today + timedelta(days=6)`, contributing its name
and `shifted.strftime("%d.%m.%Y")`. -/

/-- The weekend shift applied to a candidate date. -/
def weekendShift (candidate : PyDate) : PyDate :=
  if weekday candidate = 5 then addDays candidate 2
  else if weekday candidate = 6 then addDays candidate 1
  else candidate

/-- One loop iteration of `get_upcoming_birthdays` on record `rec`:
`ok none` when the record contributes nothing, `ok (some entry)` when it
contributes `entry`, `error e` when the iteration raises. -/
def upcomingOfRecord (today : PyDate) (rec : Record) :
    Except PyErr (Option (String × String)) :=
  match rec.birthday with
  | none => .ok none
  | some bday_str =>
    match strptimeDMY bday_str with
    | .error e => .error e
    | .ok bday_dt =>
      let year := today.y
      match mkDate year bday_dt.m bday_dt.d with
      | .error _ => .ok none
      | .ok cand0 =>
        match (if dateLt cand0 today then mkDate (year + 1) bday_dt.m bday_dt.d
               else .ok cand0) with
        | .error e => .error e
        | .ok candidate =>
          let shifted := weekendShift candidate
          if dateLe today shifted ∧ dateLe shifted (addDays today 6) then
            .ok (some (rec.name, strftimeDMY shifted))
          else
            .ok none

/-- `get_upcoming_birthdays` over the iteration sequence of the book's
records, with `today` the clock reading: accumulates the contributed
entries in iteration order, and raises as soon as an iteration raises. -/
def get_upcoming_birthdays (recs : List Record) (today : PyDate) :
    Except PyErr (List (String × String)) :=
  match recs with
  | [] => .ok []
  | rec :: rest => do
    let entry ← upcomingOfRecord today rec
    let tail ← get_upcoming_birthdays rest today
    match entry with
    | some e => .ok (e :: tail)
    | none => .ok tail

/-! ### Definitions written from the spec's words, for comparison

These two follow the specification text, not the source; the claims compare
the source functions against them. -/

/-- The spec's `^[0-9]{10}$`: exactly ten ASCII decimal digits. -/
def specPhoneRegex (s : String) : Bool :=
  s.length = 10 && s.toList.all (fun c => 48 ≤ c.toNat ∧ c.toNat ≤ 57)

/-- The spec's strict `DD.MM.YYYY` rendering of a calendar date: day and
month zero-padded to two ASCII digits, year to four. -/
def specRenderDMY (d m y : Nat) : String :=
  ⟨[Char.ofNat (48 + d / 10), Char.ofNat (48 + d % 10), '.',
    Char.ofNat (48 + m / 10), Char.ofNat (48 + m % 10), '.',
    Char.ofNat (48 + y / 1000), Char.ofNat (48 + y / 100 % 10),
    Char.ofNat (48 + y / 10 % 10), Char.ofNat (48 + y % 10)]⟩

/-- The spec's Birthday domain: a string that is the strict `DD.MM.YYYY`
rendering of some real calendar date. -/
def specExactDMY (s : String) : Bool :=
  match s.toList with
  | [a, b, '.', c, d, '.', e, f, g, h] =>
    [a, b, c, d, e, f, g, h].all (fun ch => 48 ≤ ch.toNat ∧ ch.toNat ≤ 57)
    && dateOk
         ((e.toNat - 48) * 1000 + (f.toNat - 48) * 100
           + (g.toNat - 48) * 10 + (h.toNat - 48))
         ((c.toNat - 48) * 10 + (d.toNat - 48))
         ((a.toNat - 48) * 10 + (b.toNat - 48))
  | _ => false

/-! ## Helper lemmas -/

/-- `Phone.__init__` stores exactly the string it was given. -/
theorem phone_init_ok_eq {p v : String} (h : phone_init p = .ok v) : v = p := by
  unfold phone_init at h
  split at h
  · simp at h
  · exact (Except.ok.inj h).symm

/-- `phone_init` succeeds exactly on Python-digit strings of length 10. -/
theorem phone_init_eq_ok_iff (p : String) :
    phone_init p = .ok p ↔ (pyIsDigit p = true ∧ p.length = 10) := by
  unfold phone_init
  split
  next h =>
    simp only [Bool.or_eq_true, Bool.not_eq_true', decide_eq_true_eq] at h
    constructor
    · intro hk; exact absurd hk (by simp)
    · rintro ⟨h1, h2⟩; rcases h with h | h
      · rw [h1] at h; cases h
      · exact absurd h2 h
  next h =>
    simp only [Bool.or_eq_true, Bool.not_eq_true', decide_eq_true_eq] at h
    push_neg at h
    constructor
    · intro _; exact ⟨eq_true_of_ne_false h.1, h.2⟩
    · intro _; rfl

namespace Record

/-- `find_phone` finds a phone exactly when its value is stored. -/
theorem find_phone_isSome_iff (rec : Record) (p : String) :
    (rec.find_phone p).isSome = true ↔ p ∈ rec.phones := by
  unfold find_phone
  rw [List.find?_isSome]
  constructor
  · rintro ⟨x, hx, hEq⟩; rwa [← eq_of_beq hEq]
  · intro hp; exact ⟨p, hp, beq_self_eq_true p⟩

/-- When `p` is stored, `find_phone` returns `p` itself. -/
theorem find_phone_of_mem {rec : Record} {p : String} (h : p ∈ rec.phones) :
    rec.find_phone p = some p := by
  cases hfind : rec.find_phone p with
  | none =>
    unfold find_phone at hfind
    rw [List.find?_eq_none] at hfind
    exact absurd (beq_self_eq_true p) (by simpa using hfind p h)
  | some x =>
    unfold find_phone at hfind
    have hx := List.find?_some hfind
    simp only [beq_iff_eq] at hx
    exact congrArg some hx

/-- A raising `add_phone` has not touched the record. -/
theorem add_phone_fst_of_raise {rec : Record} {p : String}
    (h : (rec.add_phone p).2.isSome = true) : (rec.add_phone p).1 = rec := by
  unfold add_phone at h ⊢
  by_cases hf : (rec.find_phone p).isSome = true
  · rw [if_pos hf]
  · rw [if_neg hf] at h ⊢
    cases hp : phone_init p with
    | error e => rfl
    | ok v => rw [hp] at h; simp at h

/-- A successful `add_phone` appends exactly the given value. -/
theorem add_phone_eq_of_ok {rec rec1 : Record} {p : String}
    (h : rec.add_phone p = (rec1, none)) :
    rec1 = { rec with phones := rec.phones ++ [p] } := by
  unfold add_phone at h
  by_cases hf : (rec.find_phone p).isSome = true
  · rw [if_pos hf] at h; simp at h
  · rw [if_neg hf] at h
    cases hp : phone_init p with
    | error e => rw [hp] at h; simp at h
    | ok v =>
      rw [hp] at h
      have hv : v = p := phone_init_ok_eq hp
      rw [hv] at h
      injection h with h1 h2
      exact h1.symm

end Record

/-! ## Theorems for the claims -/

/-- C8: for every record, `add_birthday` fails with the birthday-already-set
`ValueError` whenever a birthday is already present, whatever the new raw
value, and leaves the record — in particular the stored birthday — exactly
as it was. -/
theorem c8_add_birthday_never_overwrites (rec : Record) (b0 raw : String)
    (h : rec.birthday = some b0) :
    rec.add_birthday raw =
      (rec, some (.valueError "Birthday already set for this contact")) := by
  unfold Record.add_birthday
  rw [h]

/-- C8 witness: a record with birthday `01.01.2000` rejects a second
birthday `02.02.2002` and is returned unchanged. -/
theorem c8_witness :
    ({ name := "Ann", phones := [], birthday := some "01.01.2000" } : Record).add_birthday
        "02.02.2002"
      = ({ name := "Ann", phones := [], birthday := some "01.01.2000" },
         some (.valueError "Birthday already set for this contact")) :=
  c8_add_birthday_never_overwrites _ "01.01.2000" "02.02.2002" rfl

/-- C9 counterexample: the claim says record creation fails on the empty
name, but `Record.__init__` performs no validation at all: on the empty
string it succeeds and returns the record with empty name, no phones and no
birthday. -/
theorem c9_counterexample_empty_name_accepted :
    Record.init "" = { name := "", phones := [], birthday := none } := rfl

/-- C9 amended: record creation never fails; for every name, including the
empty string, it returns a record with that name, an empty phone list and
an absent birthday. -/
theorem c9_amended_no_name_validation (name : String) :
    (Record.init name).name = name ∧ (Record.init name).phones = [] ∧
      (Record.init name).birthday = none :=
  ⟨rfl, rfl, rfl⟩

/-- C10: for every record and stored phone `p`, `edit_phone p p` is not a
no-op: the add-before-remove order makes the duplicate check fire, so it
fails with the duplicate-phone `ValueError` and leaves the record's phone
list unchanged. -/
theorem c10_edit_phone_self_fails_duplicate (rec : Record) (p : String)
    (h : (rec.find_phone p).isSome = true) :
    rec.edit_phone p p =
      (rec, some (.valueError
        ("Phone number " ++ p ++ " already exists for " ++ rec.name))) := by
  have h0 : (rec.find_phone p).isNone = false := by
    cases hf : rec.find_phone p <;> simp_all
  unfold Record.edit_phone Record.add_phone
  simp [h0, h]

/-- C10 witness: editing `1112223333` to itself on a record storing it
fails with the duplicate-phone error and changes nothing. -/
theorem c10_witness :
    ({ name := "Bob", phones := ["1112223333"], birthday := none } : Record).edit_phone
        "1112223333" "1112223333"
      = ({ name := "Bob", phones := ["1112223333"], birthday := none },
         some (.valueError
           "Phone number 1112223333 already exists for Bob")) :=
  c10_edit_phone_self_fails_duplicate _ "1112223333" rfl

/-- C7: `edit_phone` is atomic on failure: whenever it raises — `old`
absent, `new` a duplicate, or `new` failing phone validation — the record's
state at the raise is exactly the input state. -/
theorem c7_edit_phone_atomic_on_failure (rec : Record) (old new : String)
    (e : PyErr) (h : (rec.edit_phone old new).2 = some e) :
    (rec.edit_phone old new).1 = rec := by
  unfold Record.edit_phone at h ⊢
  cases hNone : (rec.find_phone old).isNone with
  | true => simp [hNone]
  | false =>
    rw [hNone] at h
    simp only [Bool.false_eq_true, if_false] at h ⊢
    rcases hAdd : rec.add_phone new with ⟨rec1, err⟩
    rw [hAdd] at h
    cases err with
    | some e1 =>
      have hfst : (rec.add_phone new).1 = rec :=
        Record.add_phone_fst_of_raise (by rw [hAdd]; rfl)
      rw [hAdd] at hfst
      exact hfst
    | none =>
      have hrec1 : rec1 = { rec with phones := rec.phones ++ [new] } :=
        Record.add_phone_eq_of_ok hAdd
      have hmem : old ∈ rec.phones := by
        rw [← Record.find_phone_isSome_iff]
        cases hf : rec.find_phone old
        · rw [hf] at hNone; cases hNone
        · rfl
      have hfind1 : rec1.find_phone old = some old := by
        apply Record.find_phone_of_mem
        rw [hrec1]
        exact List.mem_append_left _ hmem
      have h2 : (rec1.remove_phone old).2 = some e := h
      unfold Record.remove_phone at h2
      rw [hfind1] at h2
      simp at h2

/-- C6: when `old` is stored, `new` is a valid ten-digit phone not yet
stored, and the record satisfies the phone-uniqueness invariant, then
`edit_phone old new` succeeds, afterwards `find_phone old` is absent and
`find_phone new` present, and the net effect on the phone list is `old`
replaced by `new` (removed in place, `new` appended). -/
theorem c6_edit_phone_replaces (rec : Record) (old new : String)
    (hnd : rec.phones.Nodup)
    (hold : (rec.find_phone old).isSome = true)
    (hnew : rec.find_phone new = none)
    (hdig : pyIsDigit new = true) (hlen : new.length = 10) :
    (rec.edit_phone old new).2 = none ∧
    (rec.edit_phone old new).1.find_phone old = none ∧
    ((rec.edit_phone old new).1.find_phone new).isSome = true ∧
    (rec.edit_phone old new).1.phones = rec.phones.erase old ++ [new] := by
  have hmem : old ∈ rec.phones := (Record.find_phone_isSome_iff rec old).mp hold
  have hne : old ≠ new := by
    intro heq
    rw [heq] at hold
    rw [hnew] at hold
    cases hold
  have hNone : (rec.find_phone old).isNone = false := by
    cases hf : rec.find_phone old <;> simp_all
  have hpi : phone_init new = .ok new :=
    (phone_init_eq_ok_iff new).mpr ⟨hdig, hlen⟩
  have hAdd : rec.add_phone new = ({ rec with phones := rec.phones ++ [new] }, none) := by
    simp [Record.add_phone, hnew, hpi]
  have hfind1 :
      ({ rec with phones := rec.phones ++ [new] } : Record).find_phone old = some old :=
    Record.find_phone_of_mem (List.mem_append_left _ hmem)
  have hEdit : rec.edit_phone old new =
      ({ rec with phones := rec.phones.erase old ++ [new] }, none) := by
    rw [Record.edit_phone, hNone, hAdd]
    simp only [Bool.false_eq_true, if_false]
    rw [Record.remove_phone, hfind1]
    simp [List.erase_append_left _ hmem]
  refine ⟨by rw [hEdit], ?_, ?_, by rw [hEdit]⟩
  · rw [hEdit]
    unfold Record.find_phone
    rw [List.find?_eq_none]
    intro x hx
    simp only [beq_iff_eq]
    rcases List.mem_append.mp hx with hx1 | hx2
    · exact (hnd.mem_erase_iff.mp hx1).1
    · rw [List.mem_singleton.mp hx2]
      exact hne.symm
  · rw [hEdit]
    rw [Record.find_phone_isSome_iff]
    exact List.mem_append_right _ (List.mem_singleton.mpr rfl)

/-- C6 witness: on a record storing `1112223333` and `2223334444`, editing
`1112223333` to `5556667777` succeeds, the old number is gone, the new one
is found, and the list is the old one with the replacement appended. -/
theorem c6_witness :
    (({ name := "Bob", phones := ["1112223333", "2223334444"], birthday := none } :
        Record).edit_phone "1112223333" "5556667777").2 = none ∧
    (({ name := "Bob", phones := ["1112223333", "2223334444"], birthday := none } :
        Record).edit_phone "1112223333" "5556667777").1.find_phone "1112223333" = none ∧
    ((({ name := "Bob", phones := ["1112223333", "2223334444"], birthday := none } :
        Record).edit_phone "1112223333" "5556667777").1.find_phone "5556667777").isSome
      = true ∧
    (({ name := "Bob", phones := ["1112223333", "2223334444"], birthday := none } :
        Record).edit_phone "1112223333" "5556667777").1.phones
      = ["1112223333", "2223334444"].erase "1112223333" ++ ["5556667777"] :=
  c6_edit_phone_replaces _ "1112223333" "5556667777" (by decide) (by decide) (by decide)
    (by decide) (by decide)

/-- C3 counterexample: the ten-character string of superscript-two digits
passes `str.isdigit` and the length test, so `Phone` construction succeeds
on it although it does not match `^[0-9]{10}$`. -/
theorem c3_counterexample_superscript_digits :
    phone_init "²²²²²²²²²²" = .ok "²²²²²²²²²²" ∧
      specPhoneRegex "²²²²²²²²²²" = false :=
  ⟨rfl, rfl⟩

/-- C3 amended: Phone construction succeeds on every `^[0-9]{10}$` string,
but its acceptance condition is Python's `str.isdigit` together with length
10, which also admits non-ASCII digit characters; it succeeds exactly on
the ten-character all-Python-digit strings and fails with the
`InvalidPhoneFormat` `ValueError` on all others. -/
theorem c3_amended_phone_validation (s : String) :
    (specPhoneRegex s = true → phone_init s = .ok s) ∧
    (phone_init s = .ok s ↔ pyIsDigit s = true ∧ s.length = 10) ∧
    (phone_init s = .ok s ∨
      phone_init s = .error (.valueError "Phone must be a 10-digit string")) := by
  refine ⟨?_, phone_init_eq_ok_iff s, ?_⟩
  case refine_2 =>
    unfold phone_init
    split
    · exact Or.inr rfl
    · exact Or.inl rfl
  intro h
  rw [phone_init_eq_ok_iff]
  unfold specPhoneRegex at h
  simp only [Bool.and_eq_true, decide_eq_true_eq, List.all_eq_true] at h
  obtain ⟨hlen, hall⟩ := h
  refine ⟨?_, hlen⟩
  unfold pyIsDigit
  simp only [Bool.and_eq_true, Bool.not_eq_true', List.all_eq_true]
  constructor
  · have hl : s.toList.length = 10 := hlen
    cases hcs : s.toList with
    | nil => rw [hcs] at hl; cases hl
    | cons a l => rfl
  · intro c hc
    obtain ⟨h1, h2⟩ := hall c hc
    simp [pyIsDigitChar, isNd, ndDigitVal, h1, h2]

/-- C3 witness: the all-ASCII-digit string `0123456789` is accepted, is a
Python digit string, and has length 10. -/
theorem c3_witness :
    phone_init "0123456789" = .ok "0123456789" ∧
    (pyIsDigit "0123456789" = true ∧ "0123456789".length = 10) ∧
    (phone_init "12345" = .ok "12345" ∨
      phone_init "12345" = .error (.valueError "Phone must be a 10-digit string")) :=
  ⟨(c3_amended_phone_validation "0123456789").1 (by decide),
   (c3_amended_phone_validation "0123456789").2.1.mp
     ((c3_amended_phone_validation "0123456789").1 (by decide)),
   (c3_amended_phone_validation "12345").2.2⟩

/-- C7 witness: editing to an already-stored number fails and the phone
list is untouched. -/
theorem c7_witness :
    (({ name := "Bob", phones := ["1112223333", "2223334444"], birthday := none } :
        Record).edit_phone "1112223333" "2223334444").1
      = { name := "Bob", phones := ["1112223333", "2223334444"], birthday := none } :=
  c7_edit_phone_atomic_on_failure _ "1112223333" "2223334444"
    (.valueError "Phone number 2223334444 already exists for Bob") rfl

/-- `datetime.date` construction succeeds on a valid triple. -/
theorem mkDate_ok_of_dateOk {y m d : Nat} (h : dateOk y m d = true) :
    mkDate y m d = .ok ⟨y, m, d⟩ := by
  unfold dateOk at h
  simp only [Bool.and_eq_true, decide_eq_true_eq] at h
  obtain ⟨⟨⟨⟨⟨h1, h2⟩, h3⟩, h4⟩, h5⟩, h6⟩ := h
  simp [mkDate, h1, h2, h3, h4, h5, h6]

/-- `datetime.date` construction raises on an invalid triple. -/
theorem mkDate_error_of_dateOk_false {y m d : Nat} (h : dateOk y m d = false) :
    ∃ e, mkDate y m d = .error e := by
  unfold mkDate
  split
  · exact ⟨_, rfl⟩
  · split
    · exact ⟨_, rfl⟩
    · split
      · exact ⟨_, rfl⟩
      · next h1 h2 h3 =>
        rw [not_not] at h1 h2 h3
        exfalso
        have hok : dateOk y m d = true := by
          simp [dateOk, h1.1, h1.2, h2.1, h2.2, h3.1, h3.2]
        rw [h] at hok
        cases hok

/-- A stored birthday string that parses to a real date re-parses inside
`get_upcoming_birthdays` to that date. -/
theorem strptimeDMY_ok {bstr : String} {d m y : Nat}
    (hparse : parseDMY bstr = some (d, m, y)) (hok : dateOk y m d = true) :
    strptimeDMY bstr = .ok ⟨y, m, d⟩ := by
  unfold strptimeDMY
  rw [hparse]
  exact mkDate_ok_of_dateOk hok

/-- C1 counterexample: the claim says an invalid reinterpreted date is
always skipped silently, including after the next-year rollover; but the
`date(year + 1, …)` call sits outside the `try`, so for a Feb-29 birthday
with `today = 2024-03-01` (the leap date already passed, next year not a
leap year) the whole call raises `ValueError` instead of skipping. -/
theorem c1_counterexample_rollover_raises :
    get_upcoming_birthdays
        [{ name := "Alice", phones := [], birthday := some "29.02.2020" }]
        ⟨2024, 3, 1⟩
      = .error (.valueError "day is out of range for month") := rfl

/-- C1 amended: a record whose birthday reinterpreted in today's year is an
invalid calendar date is silently skipped for this cycle; but when the
current-year date is valid and already passed while the next-year date is
invalid, the operation raises a `ValueError` instead of skipping. -/
theorem c1_amended_current_year_invalid_skipped (today : PyDate)
    (name bstr : String) (phones : List String) (d m y : Nat)
    (hparse : parseDMY bstr = some (d, m, y))
    (hstored : dateOk y m d = true)
    (hcur : dateOk today.y m d = false) :
    upcomingOfRecord today { name := name, phones := phones, birthday := some bstr }
      = .ok none := by
  obtain ⟨e, he⟩ := mkDate_error_of_dateOk_false hcur
  simp [upcomingOfRecord, strptimeDMY_ok hparse hstored, he]

/-- C1 witness: with `today = 2023-03-01` (2023 not a leap year), a record
with birthday `29.02.2020` is skipped without an error. -/
theorem c1_witness :
    upcomingOfRecord ⟨2023, 3, 1⟩
        { name := "Carol", phones := [], birthday := some "29.02.2020" }
      = .ok none :=
  c1_amended_current_year_invalid_skipped ⟨2023, 3, 1⟩ "Carol" "29.02.2020" []
    29 2 2020 rfl rfl rfl

/-- `upcoming` processing of one record reads only its name and birthday. -/
theorem upcomingOfRecord_congr (today : PyDate) (r1 r2 : Record)
    (hn : r1.name = r2.name) (hb : r1.birthday = r2.birthday) :
    upcomingOfRecord today r1 = upcomingOfRecord today r2 := by
  cases r1
  cases r2
  cases hn
  cases hb
  rfl

/-- C5 counterexample: `get_upcoming_birthdays` takes no `today` parameter
— it reads the wall clock internally.  With that ambient clock reading made
explicit, the same directory state yields different results at two
different clock readings, so two runs on the same program-level input (the
directory alone) need not agree. -/
theorem c5_counterexample_clock_dependence :
    get_upcoming_birthdays
        [{ name := "Ann", phones := [], birthday := some "12.06.2020" }]
        ⟨2024, 6, 10⟩
      ≠ get_upcoming_birthdays
        [{ name := "Ann", phones := [], birthday := some "12.06.2020" }]
        ⟨2023, 1, 1⟩ :=
  fun h => List.noConfusion (Except.ok.inj h)

/-- C5 amended: the function is not pure with respect to an explicit
`today` argument — it reads `date.today()` internally; modelling that
clock reading as an input, the result is a deterministic function of the
records' names and birthdays together with the clock reading (the phone
lists and everything else do not influence it). -/
theorem c5_amended_deterministic_in_clock_and_birthdays (today : PyDate)
    (recs1 recs2 : List Record)
    (h : recs1.map (fun r => (r.name, r.birthday))
       = recs2.map (fun r => (r.name, r.birthday))) :
    get_upcoming_birthdays recs1 today = get_upcoming_birthdays recs2 today := by
  induction recs1 generalizing recs2 with
  | nil =>
    cases recs2 with
    | nil => rfl
    | cons b l2 => simp at h
  | cons a l ih =>
    cases recs2 with
    | nil => simp at h
    | cons b l2 =>
      simp only [List.map_cons, List.cons.injEq, Prod.mk.injEq] at h
      obtain ⟨⟨hn, hb⟩, ht⟩ := h
      unfold get_upcoming_birthdays
      rw [upcomingOfRecord_congr today a b hn hb, ih l2 ht]

/-- C5 witness: two directory states agreeing on names and birthdays but
differing in phone lists produce the same result at the same clock
reading. -/
theorem c5_witness :
    get_upcoming_birthdays
        [{ name := "Ann", phones := ["1112223333"], birthday := some "12.06.2020" }]
        ⟨2024, 6, 10⟩
      = get_upcoming_birthdays
        [{ name := "Ann", phones := [], birthday := some "12.06.2020" }]
        ⟨2024, 6, 10⟩ :=
  c5_amended_deterministic_in_clock_and_birthdays ⟨2024, 6, 10⟩ _ _ rfl

/-- C2: for a record with a birthday that is a real calendar date, with the
reinterpreted date constructible in the relevant year(s): the month/day are
reinterpreted in today's year, rolled to next year when before today; a
Saturday result shifts forward 2 days and a Sunday 1 day; and the record
contributes its name with the shifted date exactly when the shifted date
lies in the inclusive window from `today` to `today + 6` days. -/
theorem c2_reinterpret_shift_window (today : PyDate) (name bstr : String)
    (phones : List String) (d m y : Nat)
    (hparse : parseDMY bstr = some (d, m, y))
    (hstored : dateOk y m d = true)
    (hcur : dateOk today.y m d = true)
    (hroll : dateLt ⟨today.y, m, d⟩ today = true → dateOk (today.y + 1) m d = true) :
    upcomingOfRecord today { name := name, phones := phones, birthday := some bstr }
      = .ok
        (let candidate :=
           if dateLt ⟨today.y, m, d⟩ today then (⟨today.y + 1, m, d⟩ : PyDate)
           else ⟨today.y, m, d⟩
         let shifted :=
           if weekday candidate = 5 then addDays candidate 2
           else if weekday candidate = 6 then addDays candidate 1
           else candidate
         if dateLe today shifted ∧ dateLe shifted (addDays today 6) then
           some (name, strftimeDMY shifted)
         else none) := by
  have hstr := strptimeDMY_ok hparse hstored
  have hcand : mkDate today.y m d = .ok ⟨today.y, m, d⟩ := mkDate_ok_of_dateOk hcur
  cases hlt : dateLt ⟨today.y, m, d⟩ today with
  | true =>
    have hnext : mkDate (today.y + 1) m d = .ok ⟨today.y + 1, m, d⟩ :=
      mkDate_ok_of_dateOk (hroll hlt)
    simp only [upcomingOfRecord, hstr, hcand, hlt, hnext, weekendShift, if_true,
      Bool.false_eq_true, if_false]
    exact (apply_ite Except.ok _ _ _).symm
  | false =>
    simp only [upcomingOfRecord, hstr, hcand, hlt, weekendShift, if_true,
      Bool.false_eq_true, if_false]
    exact (apply_ite Except.ok _ _ _).symm

/-- C2 witness: with `today = 2024-06-10` (a Monday), birthday `16.06.2020`
(a Sunday in 2024) shifts to `17.06.2024` and is excluded, while birthday
`12.06.2020` (a Wednesday) stays `12.06.2024` and is included. -/
theorem c2_witness :
    upcomingOfRecord ⟨2024, 6, 10⟩
        { name := "Ann", phones := [], birthday := some "16.06.2020" }
      = .ok none ∧
    upcomingOfRecord ⟨2024, 6, 10⟩
        { name := "Bob", phones := [], birthday := some "12.06.2020" }
      = .ok (some ("Bob", "12.06.2024")) :=
  ⟨(c2_reinterpret_shift_window ⟨2024, 6, 10⟩ "Ann" "16.06.2020" [] 16 6 2020
      rfl rfl rfl (fun _ => rfl)).trans rfl,
   (c2_reinterpret_shift_window ⟨2024, 6, 10⟩ "Bob" "12.06.2020" [] 12 6 2020
      rfl rfl rfl (fun _ => rfl)).trans rfl⟩

/-! ## Digit-character lemmas for the `strptime` round trip -/

/-- The code point of an ASCII digit character built from a digit value. -/
theorem toNat_digitChar : ∀ a, a < 10 → (Char.ofNat (48 + a)).toNat = 48 + a := by
  decide

/-- ASCII digit characters carry their digit value. -/
theorem ndDigitVal_digitChar : ∀ a, a < 10 →
    ndDigitVal (Char.ofNat (48 + a)) = some a := by
  decide

/-- The two-character `%d` alternatives accept every zero-padded day
`01`–`31`. -/
theorem day2_digitChar : ∀ a, a < 4 → ∀ b, b < 10 → 1 ≤ 10 * a + b →
    10 * a + b ≤ 31 →
    day2 (Char.ofNat (48 + a)) (Char.ofNat (48 + b)) = some (10 * a + b) := by
  decide

/-- The two-character `%m` alternatives accept every zero-padded month
`01`–`12`. -/
theorem month2_digitChar : ∀ a, a < 2 → ∀ b, b < 10 → 1 ≤ 10 * a + b →
    10 * a + b ≤ 12 →
    month2 (Char.ofNat (48 + a)) (Char.ofNat (48 + b)) = some (10 * a + b) := by
  decide

/-- No month has more than 31 days. -/
theorem daysInMonth_le_31 (y m : Nat) : daysInMonth y m ≤ 31 := by
  unfold daysInMonth
  split
  · split <;> omega
  · split <;> omega

/-- The `.%Y` tail accepts any four digits. -/
theorem dotYearEnd_digitChars (e f g h : Nat) (he : e < 10) (hf : f < 10)
    (hg : g < 10) (hh : h < 10) :
    dotYearEnd ['.', Char.ofNat (48 + e), Char.ofNat (48 + f),
        Char.ofNat (48 + g), Char.ofNat (48 + h)]
      = some (e * 1000 + f * 100 + g * 10 + h) := by
  simp only [dotYearEnd]
  rw [ndDigitVal_digitChar e he, ndDigitVal_digitChar f hf,
      ndDigitVal_digitChar g hg, ndDigitVal_digitChar h hh]

/-- C4 counterexample: `strptime("%d.%m.%Y")` accepts the non-zero-padded
string `5.6.2020`, so `Birthday` construction succeeds on a string that is
not in the exact `DD.MM.YYYY` format. -/
theorem c4_counterexample_unpadded_accepted :
    birthday_init "5.6.2020" = .ok "5.6.2020" ∧
      specExactDMY "5.6.2020" = false :=
  ⟨rfl, rfl⟩

/-- C4 amended: Birthday construction succeeds on every strict `DD.MM.YYYY`
rendering of a real calendar date, but the `strptime` pattern is more
liberal than the exact format: it also accepts one-digit (and space-padded)
day and month components; it fails with the `InvalidDateFormat` `ValueError`
exactly when the `%d.%m.%Y` parse or the date construction fails. -/
theorem c4_amended_padded_dates_accepted (d m y : Nat)
    (h : dateOk y m d = true) :
    birthday_init (specRenderDMY d m y) = .ok (specRenderDMY d m y) ∧
    specExactDMY (specRenderDMY d m y) = true ∧
    (∀ s : String, birthday_init s = .ok s ∨
      birthday_init s = .error (.valueError "Invalid date format. Use DD.MM.YYYY")) := by
  have herr : ∀ s : String, birthday_init s = .ok s ∨
      birthday_init s = .error (.valueError "Invalid date format. Use DD.MM.YYYY") := by
    intro s
    unfold birthday_init
    cases strptimeDMY s with
    | error e => exact Or.inr rfl
    | ok dt => exact Or.inl rfl
  have hb := h
  unfold dateOk at hb
  simp only [Bool.and_eq_true, decide_eq_true_eq] at hb
  obtain ⟨⟨⟨⟨⟨hy1, hy2⟩, hm1⟩, hm2⟩, hd1⟩, hd2⟩ := hb
  have hd31 : d ≤ 31 := le_trans hd2 (daysInMonth_le_31 y m)
  have hday : day2 (Char.ofNat (48 + d / 10)) (Char.ofNat (48 + d % 10))
      = some d := by
    have hx := day2_digitChar (d / 10) (by omega) (d % 10) (by omega)
      (by omega) (by omega)
    rw [Nat.div_add_mod] at hx
    exact hx
  have hmonth : month2 (Char.ofNat (48 + m / 10)) (Char.ofNat (48 + m % 10))
      = some m := by
    have hx := month2_digitChar (m / 10) (by omega) (m % 10) (by omega)
      (by omega) (by omega)
    rw [Nat.div_add_mod] at hx
    exact hx
  have hyear : dotYearEnd ['.', Char.ofNat (48 + y / 1000),
      Char.ofNat (48 + y / 100 % 10), Char.ofNat (48 + y / 10 % 10),
      Char.ofNat (48 + y % 10)] = some y := by
    have hx := dotYearEnd_digitChars (y / 1000) (y / 100 % 10) (y / 10 % 10)
      (y % 10) (by omega) (by omega) (by omega) (by omega)
    rw [show y / 1000 * 1000 + y / 100 % 10 * 100 + y / 10 % 10 * 10 + y % 10
        = y by omega] at hx
    exact hx
  have hparse : parseDMY (specRenderDMY d m y) = some (d, m, y) := by
    show matchDMY [Char.ofNat (48 + d / 10), Char.ofNat (48 + d % 10), '.',
      Char.ofNat (48 + m / 10), Char.ofNat (48 + m % 10), '.',
      Char.ofNat (48 + y / 1000), Char.ofNat (48 + y / 100 % 10),
      Char.ofNat (48 + y / 10 % 10), Char.ofNat (48 + y % 10)] = some (d, m, y)
    simp only [matchDMY, dotMonthYear, hday, hmonth, hyear, Option.map_some]
    rfl
  refine ⟨?_, ?_, herr⟩
  · simp only [birthday_init, strptimeDMY, hparse, mkDate_ok_of_dateOk h]
  · have tA := toNat_digitChar (d / 10) (by omega)
    have tB := toNat_digitChar (d % 10) (by omega)
    have tC := toNat_digitChar (m / 10) (by omega)
    have tD := toNat_digitChar (m % 10) (by omega)
    have tE := toNat_digitChar (y / 1000) (by omega)
    have tF := toNat_digitChar (y / 100 % 10) (by omega)
    have tG := toNat_digitChar (y / 10 % 10) (by omega)
    have tH := toNat_digitChar (y % 10) (by omega)
    show ((List.all _ _) && dateOk _ _ _) = true
    simp only [specRenderDMY, List.all_cons, List.all_nil, tA, tB, tC, tD, tE,
      tF, tG, tH, Nat.add_sub_cancel_left, Bool.and_eq_true, decide_eq_true_eq,
      Bool.and_true]
    refine ⟨⟨?_, ?_, ?_, ?_, ?_, ?_, ?_, ?_⟩, ?_⟩
    · omega
    · omega
    · omega
    · omega
    · omega
    · omega
    · omega
    · omega
    · rw [show y / 1000 * 1000 + y / 100 % 10 * 100 + y / 10 % 10 * 10 + y % 10
          = y by omega,
        show m / 10 * 10 + m % 10 = m by omega,
        show d / 10 * 10 + d % 10 = d by omega]
      exact h

/-- C4 witness: the padded rendering of the real date 15 June 2024 — the
string `15.06.2024` — is accepted by Birthday construction and is in the
spec's exact format. -/
theorem c4_witness :
    birthday_init (specRenderDMY 15 6 2024) = .ok (specRenderDMY 15 6 2024) ∧
    specExactDMY (specRenderDMY 15 6 2024) = true ∧
    (birthday_init "31.04.2021" = .ok "31.04.2021" ∨
      birthday_init "31.04.2021"
        = .error (.valueError "Invalid date format. Use DD.MM.YYYY")) :=
  ⟨(c4_amended_padded_dates_accepted 15 6 2024 rfl).1,
   (c4_amended_padded_dates_accepted 15 6 2024 rfl).2.1,
   (c4_amended_padded_dates_accepted 15 6 2024 rfl).2.2 "31.04.2021"⟩

end AssistantBot
